import Mathlib

/-!
Verification development for the `Instance` handle of the corellium-api
client (`src/instance.js`).  The development shallowly embeds:

* the JSON snapshot values held in `this.info` and the change-detection
  comparison used by `Instance.update` (lines 145-154);
* the channel caching and invalidation logic shared by
  `Instance.hypervisor` (lines 86-101) and `Instance.agent`
  (lines 103-117);
* the listener-driven polling loop `Instance.manageUpdates`
  (lines 156-167) together with the `newListener` hook installed by the
  constructor (line 25);
* the condition-waiter `Instance._waitFor` (lines 169-187) and
  `Instance.waitForState` (lines 193-195);
* the fire-and-forget command operations (`start`, `stop`, `reboot`,
  `rename`, `destroy`, lines 40-45 and 124-138) and the read accessors
  (`name`, `state`, `flavor`, lines 28-38).
-/

/-! ## JSON snapshot values

`this.info` always holds a value decoded from a JSON response body
(`fetchApi` parses the HTTP response).  We model such values by an
inductive tree; object fields keep their document order, since key order
is significant for the serialized-string comparison performed by
`Instance.update`. -/

inductive Json where
  | null
  | bool (b : Bool)
  | num (n : Int)
  | str (s : String)
  | arr (xs : List Json)
  | obj (fields : List (String × Json))

mutual

def Json.decEq : (a b : Json) → Decidable (a = b)
  | .null, .null => isTrue rfl
  | .null, .bool _ => isFalse (fun h => Json.noConfusion h)
  | .null, .num _ => isFalse (fun h => Json.noConfusion h)
  | .null, .str _ => isFalse (fun h => Json.noConfusion h)
  | .null, .arr _ => isFalse (fun h => Json.noConfusion h)
  | .null, .obj _ => isFalse (fun h => Json.noConfusion h)
  | .bool _, .null => isFalse (fun h => Json.noConfusion h)
  | .bool a, .bool b =>
    match instDecidableEqBool a b with
    | isTrue h => isTrue (by rw [h])
    | isFalse h => isFalse (fun hc => h (by injection hc))
  | .bool _, .num _ => isFalse (fun h => Json.noConfusion h)
  | .bool _, .str _ => isFalse (fun h => Json.noConfusion h)
  | .bool _, .arr _ => isFalse (fun h => Json.noConfusion h)
  | .bool _, .obj _ => isFalse (fun h => Json.noConfusion h)
  | .num _, .null => isFalse (fun h => Json.noConfusion h)
  | .num _, .bool _ => isFalse (fun h => Json.noConfusion h)
  | .num a, .num b =>
    match Int.decEq a b with
    | isTrue h => isTrue (by rw [h])
    | isFalse h => isFalse (fun hc => h (by injection hc))
  | .num _, .str _ => isFalse (fun h => Json.noConfusion h)
  | .num _, .arr _ => isFalse (fun h => Json.noConfusion h)
  | .num _, .obj _ => isFalse (fun h => Json.noConfusion h)
  | .str _, .null => isFalse (fun h => Json.noConfusion h)
  | .str _, .bool _ => isFalse (fun h => Json.noConfusion h)
  | .str _, .num _ => isFalse (fun h => Json.noConfusion h)
  | .str a, .str b =>
    match String.decEq a b with
    | isTrue h => isTrue (by rw [h])
    | isFalse h => isFalse (fun hc => h (by injection hc))
  | .str _, .arr _ => isFalse (fun h => Json.noConfusion h)
  | .str _, .obj _ => isFalse (fun h => Json.noConfusion h)
  | .arr _, .null => isFalse (fun h => Json.noConfusion h)
  | .arr _, .bool _ => isFalse (fun h => Json.noConfusion h)
  | .arr _, .num _ => isFalse (fun h => Json.noConfusion h)
  | .arr _, .str _ => isFalse (fun h => Json.noConfusion h)
  | .arr xs, .arr ys =>
    match Json.decEqList xs ys with
    | isTrue h => isTrue (by rw [h])
    | isFalse h => isFalse (fun hc => h (by injection hc))
  | .arr _, .obj _ => isFalse (fun h => Json.noConfusion h)
  | .obj _, .null => isFalse (fun h => Json.noConfusion h)
  | .obj _, .bool _ => isFalse (fun h => Json.noConfusion h)
  | .obj _, .num _ => isFalse (fun h => Json.noConfusion h)
  | .obj _, .str _ => isFalse (fun h => Json.noConfusion h)
  | .obj _, .arr _ => isFalse (fun h => Json.noConfusion h)
  | .obj fs, .obj gs =>
    match Json.decEqFields fs gs with
    | isTrue h => isTrue (by rw [h])
    | isFalse h => isFalse (fun hc => h (by injection hc))

def Json.decEqList : (xs ys : List Json) → Decidable (xs = ys)
  | [], [] => isTrue rfl
  | [], _ :: _ => isFalse (fun h => List.noConfusion h)
  | _ :: _, [] => isFalse (fun h => List.noConfusion h)
  | x :: xs, y :: ys =>
    match Json.decEq x y with
    | isTrue h1 =>
      match Json.decEqList xs ys with
      | isTrue h2 => isTrue (by rw [h1, h2])
      | isFalse h2 => isFalse (fun hc => h2 (by injection hc))
    | isFalse h1 => isFalse (fun hc => h1 (by injection hc))

def Json.decEqFields : (fs gs : List (String × Json)) → Decidable (fs = gs)
  | [], [] => isTrue rfl
  | [], _ :: _ => isFalse (fun h => List.noConfusion h)
  | _ :: _, [] => isFalse (fun h => List.noConfusion h)
  | (k, v) :: fs, (l, w) :: gs =>
    match String.decEq k l with
    | isTrue hk =>
      match Json.decEq v w with
      | isTrue hv =>
        match Json.decEqFields fs gs with
        | isTrue h2 => isTrue (by rw [hk, hv, h2])
        | isFalse h2 => isFalse (fun hc => by injection hc with h3 h4; exact h2 h4)
      | isFalse hv =>
        isFalse (fun hc => by injection hc with h3 h4; injection h3 with h5 h6; exact hv h6)
    | isFalse hk =>
      isFalse (fun hc => by injection hc with h3 h4; injection h3 with h5 h6; exact hk h5)

end

instance : DecidableEq Json := Json.decEq

/-- JavaScript property access `j.k` on a decoded JSON value: defined only
when `j` is an object; with duplicate keys the later binding wins, as in
`JSON.parse`.  `none` models `undefined`. -/
def Json.getField : Json → String → Option Json
  | .obj fs, k => fs.foldl (fun acc p => if p.1 = k then some p.2 else acc) none
  | _, _ => none

/-- JavaScript truthiness of a (possibly `undefined`) decoded JSON value,
as tested by `if (info.panicked)` in `Instance.update`. -/
def Json.truthy : Option Json → Bool
  | none => false
  | some .null => false
  | some (.bool b) => b
  | some (.num n) => n != 0
  | some (.str s) => s != ""
  | some (.arr _) => true
  | some (.obj _) => true

/-- The comparison `JSON.stringify(info) != JSON.stringify(this.info)` from
`Instance.update` (the source comments it as "one way of checking object
equality").  On values decoded from JSON, `JSON.stringify` is a faithful
serialization: two decoded values produce the same string exactly when they
are the same tree, with object key order significant.  We therefore embed
the string comparison as tree disequality over `Json`, whose `obj`
constructor keeps fields in document order, preserving the key-order
sensitivity of the original comparison. -/
def jsonStringifyNe (a b : Json) : Bool :=
  a != b

/-! ## Instance.update (lines 145-154) -/

/-- Result of one `Instance.update` call: the value of `this.info`
afterwards and how many times each notification was emitted. -/
structure UpdateResult where
  info : Json
  changeEmits : Nat
  panicEmits : Nat
deriving DecidableEq

/-- Embeds `Instance.update`: fetch yields `fetched`; if its serialization
differs from the cached snapshot, replace `this.info`, emit `change` once,
and additionally emit `panic` once when `fetched.panicked` is truthy. -/
def Instance.update (cached fetched : Json) : UpdateResult :=
  if jsonStringifyNe fetched cached then
    { info := fetched
      changeEmits := 1
      panicEmits := if Json.truthy (Json.getField fetched "panicked") then 1 else 0 }
  else
    { info := cached, changeEmits := 0, panicEmits := 0 }

/-- Spec-side relation (refinement comparison for the change-detection
claim): "structural equality is order-independent across mapping keys" —
here instantiated to snapshots that carry identical field values with keys
in possibly different order, i.e. the field lists are permutations of one
another. -/
def specOrderIndependentEq (a b : Json) : Bool :=
  match a, b with
  | .obj fs, .obj gs => decide (List.Perm fs gs)
  | x, y => x == y

/-! ## Channel caching (Instance.hypervisor, lines 86-101, and
Instance.agent, lines 103-117)

Both accessors share one algorithm over a stored nullable channel field
(`this.hypervisorStream` / `this.agentStream`); they differ only in how the
endpoint is derived and which constructor builds the replacement.  A
channel is identified by `cid` (object identity); `active` is the snapshot
of the liveness the underlying connection reports at the time of the call,
and `endpoint` is the endpoint recorded at construction. -/

structure Channel where
  cid : Nat
  active : Bool
  endpoint : String
deriving DecidableEq

/-- Observable side effects of one accessor call, in order:
`disconnect cid` models `stream.disconnect()`, `construct cid ep` models
`new c3po.HypervisorStream(ep)` / `new Agent(ep)`. -/
inductive ChanEvent where
  | disconnect (cid : Nat)
  | construct (cid : Nat) (endpoint : String)
deriving DecidableEq

structure ChanResult where
  returned : Nat
  stored : Option Channel
  events : List ChanEvent
  nextId : Nat
deriving DecidableEq

/-- The shared body of `Instance.hypervisor` / `Instance.agent` after the
initial `_waitFor`: if a channel is stored and active, reuse it when the
endpoint matches, otherwise disconnect it, null the field, and fall through;
in every non-reuse case (stored inactive, stored active with a different
endpoint, or nothing stored) construct and store a fresh channel.  `fresh`
is the identity given to a newly constructed channel, which starts live. -/
def getChannel (stored : Option Channel) (endpoint : String) (fresh : Nat) : ChanResult :=
  match stored with
  | some ch =>
    if ch.active then
      if endpoint = ch.endpoint then
        { returned := ch.cid, stored := some ch, events := [], nextId := fresh }
      else
        { returned := fresh
          stored := some { cid := fresh, active := true, endpoint := endpoint }
          events := [.disconnect ch.cid, .construct fresh endpoint]
          nextId := fresh + 1 }
    else
      { returned := fresh
        stored := some { cid := fresh, active := true, endpoint := endpoint }
        events := [.construct fresh endpoint]
        nextId := fresh + 1 }
  | none =>
      { returned := fresh
        stored := some { cid := fresh, active := true, endpoint := endpoint }
        events := [.construct fresh endpoint]
        nextId := fresh + 1 }

/-- Endpoint derivation of `Instance.hypervisor` (line 89):
`this.project.api + '/c3po/' + this.info.c3po`. -/
def hypervisorEndpoint (api c3po : String) : String :=
  api ++ "/c3po/" ++ c3po

/-- Endpoint derivation of `Instance.agent` (line 105):
`this.project.api + '/agent/' + this.info.agent.info`. -/
def agentEndpoint (api agentInfo : String) : String :=
  api ++ "/agent/" ++ agentInfo

/-- `Instance.hypervisor` after its `_waitFor` preamble. -/
def Instance.hypervisor (api c3po : String) (stored : Option Channel) (fresh : Nat) :
    ChanResult :=
  getChannel stored (hypervisorEndpoint api c3po) fresh

/-- `Instance.agent` after its `_waitFor` preamble. -/
def Instance.agent (api agentInfo : String) (stored : Option Channel) (fresh : Nat) :
    ChanResult :=
  getChannel stored (agentEndpoint api agentInfo) fresh

/-- Environment action between two accessor calls: the underlying
connection of the stored channel (if any) now reports liveness `a`. -/
def refreshActive (stored : Option Channel) (a : Bool) : Option Channel :=
  stored.map (fun ch => { ch with active := a })

/-! ## The polling loop (Instance.manageUpdates, lines 156-167, and the
newListener hook, line 25)

Node schedules the loop body with `process.nextTick`; the `updating` flag
is assigned only inside the scheduled callback, not at scheduling time.
We model the handle-local scheduler state: `queued` counts callbacks that
`process.nextTick` has accepted but not yet run, `running` is the await
point of a loop body in progress, `listeners` is `listenerCount('change')`,
and `fetches` counts the `update()` calls the loop has issued (each one a
remote fetch). -/

inductive PollPhase where
  | fetching
  | sleeping
deriving DecidableEq

structure Cfg where
  updating : Bool
  listeners : Nat
  queued : Nat
  running : Option PollPhase
  fetches : Nat
deriving DecidableEq

/-- The handle right after the constructor: `this.updating = false`
(line 17), no listeners, nothing scheduled. -/
def initCfg : Cfg :=
  { updating := false, listeners := 0, queued := 0, running := none, fetches := 0 }

/-- `Instance.manageUpdates` (lines 156-167): return immediately when
`this.updating` is set, otherwise hand a loop callback to
`process.nextTick`.  The flag is only assigned inside that callback. -/
def manageUpdates (c : Cfg) : Cfg :=
  if c.updating then c else { c with queued := c.queued + 1 }

/-- `emitter.on('change', ...)`: the `newListener` hook installed at
line 25 fires `manageUpdates` synchronously before the listener is added. -/
def addChangeListener (c : Cfg) : Cfg :=
  let c1 := manageUpdates c
  { c1 with listeners := c1.listeners + 1 }

/-- `removeListener('change', ...)`, as performed by a resolving waiter. -/
def removeChangeListener (c : Cfg) : Cfg :=
  { c with listeners := c.listeners - 1 }

/-- The Node event loop runs one queued `process.nextTick` callback: the
loop body sets `this.updating = true` and immediately calls `update()`,
entering its first fetch.  No-op when nothing is queued. -/
def runQueuedTask (c : Cfg) : Cfg :=
  match c.queued with
  | 0 => c
  | q + 1 =>
    { c with queued := q, updating := true, running := some .fetching,
             fetches := c.fetches + 1 }

/-- The awaited `this.update()` resolves; the body proceeds to
`await sleep(1000)`. -/
def fetchResolves (c : Cfg) : Cfg :=
  if c.running = some PollPhase.fetching then { c with running := some .sleeping } else c

/-- The awaited `sleep(1000)` resolves; the do-while condition
`listenerCount('change') != 0` is evaluated: either the body re-enters
`update()` (a new fetch), or the loop exits and clears `this.updating`. -/
def sleepResolves (c : Cfg) : Cfg :=
  if c.running = some PollPhase.sleeping then
    if c.listeners ≠ 0 then
      { c with running := some .fetching, fetches := c.fetches + 1 }
    else
      { c with running := none, updating := false }
  else c

/-- The registration step of `Instance._waitFor` (lines 184-185) as seen by
the scheduler: `this.on('change', change)` first (triggering the
`newListener` hook), then the immediate evaluation `change()`, which — when
the predicate is already satisfied — removes the listener again at once. -/
def waitForRegistration (alreadyTrue : Bool) (c : Cfg) : Cfg :=
  let c1 := addChangeListener c
  if alreadyTrue then removeChangeListener c1 else c1

/-! ## The condition waiter (Instance._waitFor, lines 169-187)

One waiter is a predicate over `this.info` plus the `resolved` flag of its
promise.  The predicate body may throw (`this.info.services.vpn` when
`services` is `undefined` throws a TypeError); `_waitFor` wraps the call in
try/catch and maps an exception to `done = false`.  We model a predicate as
an `Except`-valued function, so that throwing is explicit data. -/

structure WaitState where
  info : Json
  resolved : Bool
deriving DecidableEq

/-- The guarded predicate call inside the `change` handler (lines 172-177):
`done = callback()`, with a thrown exception caught and turned into
`done = false`. -/
def evalPredicate (p : Json → Except String Bool) (info : Json) : Bool :=
  match p info with
  | .ok b => b
  | .error _ => false

/-- `Instance._waitFor` registration (lines 184-185): subscribe the
`change` handler, then run it once immediately against the current
snapshot; if the predicate already holds the handler unsubscribes and
resolves on the spot. -/
def waitForStart (p : Json → Except String Bool) (info : Json) : WaitState :=
  { info := info, resolved := evalPredicate p info }

/-- One refresh (`Instance.update`) as observed by a registered waiter:
when the fetched snapshot serializes differently, `this.info` is replaced
and `change` is emitted, so an unresolved waiter re-evaluates its
predicate against the new snapshot; a resolved waiter has removed its
listener and only sees the cache replacement. -/
def refreshStep (p : Json → Except String Bool) (s : WaitState) (fetched : Json) :
    WaitState :=
  if jsonStringifyNe fetched s.info then
    if s.resolved then
      { info := fetched, resolved := true }
    else
      { info := fetched, resolved := evalPredicate p fetched }
  else
    s

/-- A whole sequence of refreshes applied to a waiter. -/
def refreshRun (p : Json → Except String Bool) (s : WaitState) (fs : List Json) :
    WaitState :=
  fs.foldl (refreshStep p) s

/-- The JavaScript test `this.state === target` used by
`Instance.waitForState` (line 194): the `state` getter reads
`this.info.state`, and strict equality against the string `target` holds
exactly when that field is the string `target`. -/
def stateIs (target : String) (info : Json) : Bool :=
  Json.getField info "state" == some (Json.str target)

/-- The predicate closure `() => this.state === state` passed by
`Instance.waitForState`; it never throws. -/
def waitForStatePredicate (target : String) : Json → Except String Bool :=
  fun info => .ok (stateIs target info)

/-! ## Command operations and read accessors (Instance Facade) -/

/-- One REST request as issued by `Instance._fetch` (lines 197-199). -/
structure Request where
  path : String
  method : String
  body : Option Json
deriving DecidableEq

/-- The handle state the facade operations touch: the remote id (line 16)
and the cached snapshot `this.info` (line 15). -/
structure InstanceState where
  id : String
  info : Json
deriving DecidableEq

/-- `Instance._fetch`: the request targets
`/instances/` ++ id ++ endpoint. -/
def instanceFetchRequest (s : InstanceState) (endpoint method : String)
    (body : Option Json) : Request :=
  { path := "/instances/" ++ s.id ++ endpoint, method := method, body := body }

/-- `Instance.name` getter (lines 28-30). -/
def Instance.name (s : InstanceState) : Option Json :=
  Json.getField s.info "name"

/-- `Instance.state` getter (lines 32-34). -/
def Instance.state (s : InstanceState) : Option Json :=
  Json.getField s.info "state"

/-- `Instance.flavor` getter (lines 36-38). -/
def Instance.flavor (s : InstanceState) : Option Json :=
  Json.getField s.info "flavor"

/-- `Instance.start` (lines 124-126): POST `/start`; no assignment to
`this.info` anywhere in the body. -/
def Instance.start (s : InstanceState) : InstanceState × Request :=
  (s, instanceFetchRequest s "/start" "POST" none)

/-- `Instance.stop` (lines 128-130): POST `/stop`. -/
def Instance.stop (s : InstanceState) : InstanceState × Request :=
  (s, instanceFetchRequest s "/stop" "POST" none)

/-- `Instance.reboot` (lines 132-134): POST `/reboot`. -/
def Instance.reboot (s : InstanceState) : InstanceState × Request :=
  (s, instanceFetchRequest s "/reboot" "POST" none)

/-- `Instance.rename` (lines 40-45): PATCH with body `{name}`. -/
def Instance.rename (s : InstanceState) (nm : String) : InstanceState × Request :=
  (s, instanceFetchRequest s "" "PATCH" (some (Json.obj [("name", Json.str nm)])))

/-- `Instance.destroy` (lines 136-138): DELETE. -/
def Instance.destroy (s : InstanceState) : InstanceState × Request :=
  (s, instanceFetchRequest s "" "DELETE" none)

/-- Modelled from the spec: `pause` is listed among the command operations
("start, stop, reboot, pause, unpause, rename, destroy are fire-and-forget
remote calls: issuing one does not itself update cachedState"), but no
`pause` method appears in `src/instance.js`; following the spec it is a
POST command request that leaves the cached snapshot untouched. -/
def Instance.pause (s : InstanceState) : InstanceState × Request :=
  (s, instanceFetchRequest s "/pause" "POST" none)

/-- Modelled from the spec: `unpause`, the counterpart of `pause`, equally
absent from `src/instance.js`; a fire-and-forget POST command request that
leaves the cached snapshot untouched. -/
def Instance.unpause (s : InstanceState) : InstanceState × Request :=
  (s, instanceFetchRequest s "/unpause" "POST" none)

/-! ## Helper lemmas -/

theorem jsonStringifyNe_iff (a b : Json) : jsonStringifyNe a b = true ↔ a ≠ b := by
  simp [jsonStringifyNe]

theorem jsonStringifyNe_eq_false_iff (a b : Json) : jsonStringifyNe a b = false ↔ a = b := by
  simp [jsonStringifyNe]

/-- Whatever the stored channel was, after one accessor call the stored
field holds a channel whose recorded endpoint is the requested one and
whose identity is the returned one. -/
theorem getChannel_stored_spec (st : Option Channel) (ep : String) (fresh : Nat) :
    ∃ ch, (getChannel st ep fresh).stored = some ch
      ∧ ch.endpoint = ep ∧ ch.cid = (getChannel st ep fresh).returned := by
  match st with
  | none => exact ⟨_, rfl, rfl, rfl⟩
  | some ch =>
    by_cases ha : ch.active
    · by_cases he : ep = ch.endpoint
      · refine ⟨ch, ?_, he.symm, ?_⟩ <;> simp [getChannel, ha, he]
      · refine ⟨{ cid := fresh, active := true, endpoint := ep }, ?_, rfl, ?_⟩ <;>
          simp [getChannel, ha, he]
    · refine ⟨{ cid := fresh, active := true, endpoint := ep }, ?_, rfl, ?_⟩ <;>
        simp [getChannel, ha]

/-! ## Claim C1 -/

/-- C1 counterexample: two snapshots carrying identical field values whose
keys appear in different order (so the order-independent structural
equality of the claim holds between them) nonetheless make `update`
replace the cached snapshot and emit one `change` notification, because
the comparison at line 148 is over serialized strings in which key order
is significant.  The claim requires zero notifications and no replacement
here. -/
theorem C1_counterexample :
    specOrderIndependentEq
        (Json.obj [("a", Json.str "1"), ("b", Json.str "2")])
        (Json.obj [("b", Json.str "2"), ("a", Json.str "1")]) = true
    ∧ (Instance.update
        (Json.obj [("a", Json.str "1"), ("b", Json.str "2")])
        (Json.obj [("b", Json.str "2"), ("a", Json.str "1")])).changeEmits = 1
    ∧ (Instance.update
        (Json.obj [("a", Json.str "1"), ("b", Json.str "2")])
        (Json.obj [("b", Json.str "2"), ("a", Json.str "1")])).info
      = Json.obj [("b", Json.str "2"), ("a", Json.str "1")] := by
  refine ⟨by decide, by decide, by decide⟩

/-- C1 (amended): `update()` replaces the cached snapshot and emits exactly
one state-changed notification iff the freshly fetched snapshot serializes
differently from the previous cached one, i.e. iff the two differ as JSON
trees with object key order significant; when the serializations coincide,
the cache is untouched and zero notifications are emitted.  In particular
key-reordered but value-identical snapshots do trigger a replacement and
one notification. -/
theorem C1_amended_update_change_iff (cached fetched : Json) :
    (((Instance.update cached fetched).info = fetched
        ∧ (Instance.update cached fetched).changeEmits = 1) ↔ fetched ≠ cached)
    ∧ (((Instance.update cached fetched).info = cached
        ∧ (Instance.update cached fetched).changeEmits = 0) ↔ fetched = cached) := by
  by_cases h : fetched = cached
  · subst h
    simp [Instance.update, jsonStringifyNe]
  · have hne : jsonStringifyNe fetched cached = true := (jsonStringifyNe_iff _ _).mpr h
    constructor
    · simp [Instance.update, hne, h]
    · constructor
      · intro hc
        exact absurd (hc.1.symm.trans (by simp [Instance.update, hne])) (Ne.symm h)
      · intro hc
        exact absurd hc h

/-- Witness for the amended C1 statement at a concrete input. -/
theorem C1_amended_update_change_iff_witness :
    (Instance.update Json.null (Json.bool true)).changeEmits = 1 :=
  (((C1_amended_update_change_iff Json.null (Json.bool true)).1).mpr (by decide)).2

/-! ## Claim C8 -/

/-- C8 counterexample: a refresh from an already-panicked cached snapshot
to a still-panicked fetched snapshot that differs in another field.  At
this input every condition the claim names is met except one — the refresh
detects a state change (one `change` emit), the new snapshot is panicked —
but the previous cached snapshot was *already* panicked, so the claim
("fires only ... while the previous cached snapshot was not already
panicked") requires zero `panic` emits here.  The code emits `panic`
anyway: line 151 sits inside the change branch and tests only
`info.panicked` on the freshly fetched snapshot; the previous panicked
flag is never consulted (`lastPanicLength`, line 22, is never read in
this file). -/
theorem C8_counterexample :
    Json.truthy (Json.getField
        (Json.obj [("panicked", Json.bool true), ("x", Json.str "1")]) "panicked") = true
    ∧ Json.truthy (Json.getField
        (Json.obj [("panicked", Json.bool true), ("x", Json.str "2")]) "panicked") = true
    ∧ (Instance.update
        (Json.obj [("panicked", Json.bool true), ("x", Json.str "1")])
        (Json.obj [("panicked", Json.bool true), ("x", Json.str "2")])).changeEmits = 1
    ∧ (Instance.update
        (Json.obj [("panicked", Json.bool true), ("x", Json.str "1")])
        (Json.obj [("panicked", Json.bool true), ("x", Json.str "2")])).panicEmits = 1 := by
  refine ⟨by decide, by decide, by decide, by decide⟩

/-- C8 (amended): a `panic` notification is emitted — exactly once — when
the refresh detects a state change (the fetched snapshot serializes
differently from the cached one) and the fetched snapshot has a truthy
`panicked` field, regardless of whether the previous cached snapshot was
already panicked; in every other case (no detected change, or the fetched
snapshot not panicked) zero `panic` notifications are emitted. -/
theorem C8_amended_panic_iff (cached fetched : Json) :
    ((Instance.update cached fetched).panicEmits = 1
      ↔ (fetched ≠ cached ∧ Json.truthy (Json.getField fetched "panicked") = true))
    ∧ ((Instance.update cached fetched).panicEmits = 0
      ↔ ¬ (fetched ≠ cached ∧ Json.truthy (Json.getField fetched "panicked") = true)) := by
  by_cases h : fetched = cached
  · subst h
    constructor <;> simp [Instance.update, jsonStringifyNe]
  · have hne : jsonStringifyNe fetched cached = true := (jsonStringifyNe_iff _ _).mpr h
    by_cases hp : Json.truthy (Json.getField fetched "panicked") = true
    · constructor <;> simp [Instance.update, hne, h, hp]
    · constructor <;> simp [Instance.update, hne, h, hp]

/-- Witness for the amended C8 statement at a concrete input. -/
theorem C8_amended_panic_iff_witness :
    (Instance.update Json.null (Json.obj [("panicked", Json.bool true)])).panicEmits = 1 :=
  (C8_amended_panic_iff Json.null (Json.obj [("panicked", Json.bool true)])).1.mpr
    ⟨by decide, by decide⟩

/-! ## Claim C2 -/

/-- C2 counterexample: a channel is stored whose connection no longer
reports itself active; the accessor does not reuse it (a fresh channel is
constructed, stored and returned), yet no `disconnect` is ever invoked on
the old channel — the guard at line 91 / line 107 skips the disconnect
branch entirely when `active` is false.  The claim requires a disconnect
exactly once whenever a stored channel is not reused, including the
inactive case; the stored non-null inactive channel also contradicts the
claimed non-null-implies-active invariant. -/
theorem C2_counterexample :
    (getChannel (some { cid := 0, active := false, endpoint := "E" }) "E" 1).returned = 1
    ∧ (getChannel (some { cid := 0, active := false, endpoint := "E" }) "E" 1).events
        = [ChanEvent.construct 1 "E"]
    ∧ (getChannel (some { cid := 0, active := false, endpoint := "E" }) "E" 1).stored
        = some { cid := 1, active := true, endpoint := "E" } := by
  refine ⟨by decide, by decide, by decide⟩

/-- C2 (amended): when a channel `ch` is stored, its `disconnect` is
invoked — exactly once, and before the replacement is constructed — iff
`ch` still reports itself active and the derived endpoint differs; an
inactive stored channel is discarded and overwritten without any
disconnect; and after every accessor call the channel field is non-null
and holds the channel just returned (it may later go inactive while still
stored). -/
theorem C2_amended_disconnect_iff_active_and_endpoint_change
    (st : Option Channel) (ep : String) (fresh : Nat) (ch : Channel)
    (hst : st = some ch) :
    ((getChannel st ep fresh).events
        = [ChanEvent.disconnect ch.cid, ChanEvent.construct fresh ep]
      ↔ (ch.active = true ∧ ep ≠ ch.endpoint))
    ∧ (ch.active = false →
        (getChannel st ep fresh).events = [ChanEvent.construct fresh ep]
        ∧ (getChannel st ep fresh).stored
            = some { cid := fresh, active := true, endpoint := ep })
    ∧ (∃ ch2, (getChannel st ep fresh).stored = some ch2
        ∧ ch2.cid = (getChannel st ep fresh).returned) := by
  subst hst
  refine ⟨?_, ?_, ?_⟩
  · by_cases ha : ch.active
    · by_cases he : ep = ch.endpoint
      · simp [getChannel, ha, he]
      · simp [getChannel, ha, he]
    · simp [getChannel, ha]
  · intro ha
    simp [getChannel, ha]
  · obtain ⟨ch2, h1, _, h3⟩ := getChannel_stored_spec (some ch) ep fresh
    exact ⟨ch2, h1, h3⟩

/-- Witness for the amended C2 statement: an active stored channel with a
different endpoint is disconnected exactly once before the replacement is
constructed. -/
theorem C2_amended_witness :
    (getChannel (some { cid := 7, active := true, endpoint := "old" }) "new" 9).events
      = [ChanEvent.disconnect 7, ChanEvent.construct 9 "new"] :=
  ((C2_amended_disconnect_iff_active_and_endpoint_change
      (some { cid := 7, active := true, endpoint := "old" }) "new" 9
      { cid := 7, active := true, endpoint := "old" } rfl).1).mpr
    ⟨rfl, by decide⟩

/-! ## Claim C4 -/

/-- C4: after any accessor call, a second call in succession — with the
stored channel still reporting itself active — returns the identical
channel instance, leaves the stored field untouched and performs neither a
disconnect nor a construction when the derived endpoint is unchanged; and
when the derived endpoint differs between the two calls, the previously
stored channel receives exactly one `disconnect`, ordered before the
construction of the replacement that is then returned. -/
theorem C4_channel_reuse_and_switch (st : Option Channel) (ep ep2 : String)
    (fresh fresh2 : Nat) :
    ((getChannel (refreshActive (getChannel st ep fresh).stored true) ep fresh2).returned
        = (getChannel st ep fresh).returned
      ∧ (getChannel (refreshActive (getChannel st ep fresh).stored true) ep fresh2).stored
        = refreshActive (getChannel st ep fresh).stored true
      ∧ (getChannel (refreshActive (getChannel st ep fresh).stored true) ep fresh2).events
        = [])
    ∧ (ep2 ≠ ep →
      (getChannel (refreshActive (getChannel st ep fresh).stored true) ep2 fresh2).events
        = [ChanEvent.disconnect (getChannel st ep fresh).returned,
           ChanEvent.construct fresh2 ep2]
      ∧ (getChannel (refreshActive (getChannel st ep fresh).stored true) ep2 fresh2).returned
        = fresh2) := by
  obtain ⟨ch, hs, hep, hcid⟩ := getChannel_stored_spec st ep fresh
  constructor
  · rw [hs]
    simp [refreshActive, getChannel, hep, hcid]
  · intro hne
    rw [hs]
    have : ¬ ep2 = ch.endpoint := by rw [hep]; exact hne
    simp [refreshActive, getChannel, this, hcid]

/-- Witness for C4: starting from an empty field, a first call constructs a
channel; a same-endpoint second call returns the identical instance, and a
different-endpoint second call disconnects it exactly once before the
replacement. -/
theorem C4_channel_reuse_and_switch_witness :
    (getChannel (refreshActive (getChannel none "a" 0).stored true) "a" 1).returned
      = (getChannel none "a" 0).returned
    ∧ (getChannel (refreshActive (getChannel none "a" 0).stored true) "b" 1).events
      = [ChanEvent.disconnect (getChannel none "a" 0).returned,
         ChanEvent.construct 1 "b"] :=
  ⟨(C4_channel_reuse_and_switch none "a" "b" 0 1).1.1,
   ((C4_channel_reuse_and_switch none "a" "b" 0 1).2 (by decide)).1⟩

/-! ## Claim C3 -/

/-- C3 counterexample: two observer registrations in the same scheduling
tick — i.e. before any `process.nextTick` callback has run — each pass the
`this.updating` guard (the flag is only assigned inside the scheduled
callback, line 160, never at scheduling time), so two polling callbacks
are handed to `process.nextTick`: the second invocation of
`manageUpdates` is not a no-op, and a second polling task is started.  The
claim requires the second invocation to be a no-op in every interleaving,
including this one. -/
theorem C3_counterexample :
    (addChangeListener (addChangeListener initCfg)).queued = 2
    ∧ manageUpdates (manageUpdates initCfg) ≠ manageUpdates initCfg := by
  refine ⟨by decide, by decide⟩

/-- C3 (amended): a second invocation of `manageUpdates` is a no-op iff it
happens once a scheduled polling callback has begun executing, which is
when `this.updating` is set; registrations that arrive after that point add
no further polling task, but two registrations that both precede the first
callback run (e.g. in the same scheduling tick) schedule two polling
tasks. -/
theorem C3_amended_single_loop_only_after_start (c : Cfg) (h : c.updating = true) :
    manageUpdates c = c
    ∧ (addChangeListener c).queued = c.queued
    ∧ (runQueuedTask (addChangeListener initCfg)).updating = true
    ∧ (addChangeListener (runQueuedTask (addChangeListener initCfg))).queued = 0 := by
  refine ⟨?_, ?_, by decide, by decide⟩
  · simp [manageUpdates, h]
  · simp [addChangeListener, manageUpdates, h]

/-- Witness for the amended C3 statement: once the loop body of an
already-started polling task is executing, a further registration
schedules nothing. -/
theorem C3_amended_witness :
    manageUpdates (runQueuedTask (addChangeListener initCfg))
      = runQueuedTask (addChangeListener initCfg) :=
  (C3_amended_single_loop_only_after_start
    (runQueuedTask (addChangeListener initCfg)) (by decide)).1

/-! ## Claim C10 -/

/-- C10: `_waitFor` subscribes its `change` handler before the first
predicate evaluation (lines 184-185), so every call — from a handle with
no loop running or scheduled — fires the `newListener` hook and schedules
exactly one polling callback, even when the predicate already holds at
call time and the handler unsubscribes on the spot; when that callback
runs, the do-while body issues an `update()` (a remote fetch) before the
listener count is first consulted (the count is only read after
`await sleep(1000)`), so the call is never free of remote-fetch side
effects. -/
theorem C10_waitFor_always_fetches (alreadyTrue : Bool) (c : Cfg)
    (hu : c.updating = false) (hq : c.queued = 0) :
    (waitForRegistration alreadyTrue c).queued = 1
    ∧ (waitForRegistration true c).listeners = c.listeners
    ∧ (runQueuedTask (waitForRegistration alreadyTrue c)).fetches = c.fetches + 1
    ∧ (runQueuedTask (waitForRegistration alreadyTrue c)).running
        = some PollPhase.fetching := by
  have hreg : (waitForRegistration alreadyTrue c).queued = 1 := by
    cases alreadyTrue <;>
      simp [waitForRegistration, addChangeListener, removeChangeListener,
            manageUpdates, hu, hq]
  refine ⟨hreg, ?_, ?_, ?_⟩
  · simp [waitForRegistration, addChangeListener, removeChangeListener,
          manageUpdates, hu]
  · rw [show (runQueuedTask (waitForRegistration alreadyTrue c)).fetches
        = (waitForRegistration alreadyTrue c).fetches + 1 from by
          simp [runQueuedTask, hreg]]
    cases alreadyTrue <;>
      simp [waitForRegistration, addChangeListener, removeChangeListener,
            manageUpdates, hu]
  · simp [runQueuedTask, hreg]

/-- Witness for C10 on the freshly constructed handle with a predicate that
already holds at call time. -/
theorem C10_waitFor_always_fetches_witness :
    (runQueuedTask (waitForRegistration true initCfg)).fetches = initCfg.fetches + 1 :=
  (C10_waitFor_always_fetches true initCfg rfl rfl).2.2.1

/-! ## Claim C5 -/

/-- C5: with a polling body in progress and the last `change` observer
gone (`listenerCount` is 0, nothing further queued), (a) the loop does not
stop at removal time — an observer-removal step and the pending
`update()` resolution both leave the body running, since the continuation
condition is only read after the sleep; (b) the loop terminates after at
most the remainder of one full poll-and-sleep cycle — if it is sleeping,
the very next sleep resolution exits and clears `this.updating`; if it is
still fetching, one fetch resolution followed by one sleep resolution
exits — in both cases without issuing any new fetch, so it never runs
indefinitely; and (c) the loop is re-armable: from the stopped
configuration the next 0-to-1 observer transition schedules a fresh
polling task whose run sets `this.updating` and enters a new fetch. -/
theorem C5_poll_loop_stop_and_rearm (c : Cfg) (ph : PollPhase)
    (hl : c.listeners = 0) (hq : c.queued = 0) (hr : c.running = some ph) :
    ((removeChangeListener c).running = c.running
      ∧ (fetchResolves c).running ≠ none)
    ∧ (ph = PollPhase.sleeping →
        (sleepResolves c).running = none
        ∧ (sleepResolves c).updating = false
        ∧ (sleepResolves c).fetches = c.fetches)
    ∧ (ph = PollPhase.fetching →
        (sleepResolves (fetchResolves c)).running = none
        ∧ (sleepResolves (fetchResolves c)).updating = false
        ∧ (sleepResolves (fetchResolves c)).fetches = c.fetches)
    ∧ (ph = PollPhase.sleeping →
        (runQueuedTask (addChangeListener (sleepResolves c))).running
          = some PollPhase.fetching
        ∧ (runQueuedTask (addChangeListener (sleepResolves c))).updating = true) := by
  refine ⟨⟨rfl, ?_⟩, ?_, ?_, ?_⟩
  · cases ph with
    | fetching => simp [fetchResolves, hr]
    | sleeping =>
      have : ¬ c.running = some PollPhase.fetching := by
        rw [hr]; exact fun hcon => by injection hcon with h2; exact PollPhase.noConfusion h2
      simp [fetchResolves, this, hr]
  · intro hp
    subst hp
    simp [sleepResolves, hr, hl]
  · intro hp
    subst hp
    simp [fetchResolves, sleepResolves, hr, hl]
  · intro hp
    subst hp
    have hstop : sleepResolves c
        = { c with running := none, updating := false } := by
      simp [sleepResolves, hr, hl]
    rw [hstop]
    simp [addChangeListener, manageUpdates, runQueuedTask, hq]

/-- Witness for C5 at a concrete sleeping-loop configuration with no
remaining observers. -/
theorem C5_poll_loop_stop_and_rearm_witness :
    (sleepResolves
        { updating := true, listeners := 0, queued := 0,
          running := some PollPhase.sleeping, fetches := 3 }).running = none
    ∧ (runQueuedTask (addChangeListener (sleepResolves
        { updating := true, listeners := 0, queued := 0,
          running := some PollPhase.sleeping, fetches := 3 }))).updating = true :=
  ⟨((C5_poll_loop_stop_and_rearm
      { updating := true, listeners := 0, queued := 0,
        running := some PollPhase.sleeping, fetches := 3 }
      PollPhase.sleeping rfl rfl rfl).2.1 rfl).1,
   ((C5_poll_loop_stop_and_rearm
      { updating := true, listeners := 0, queued := 0,
        running := some PollPhase.sleeping, fetches := 3 }
      PollPhase.sleeping rfl rfl rfl).2.2.2 rfl).2⟩

/-! ## Claim C6 -/

/-- While a `waitForState` waiter is unresolved, the cached snapshot never
has the target state: the predicate was evaluated at registration and
after every cache replacement. -/
theorem refreshStep_state_invariant (target : String) (s : WaitState) (f : Json)
    (hinv : s.resolved = false → stateIs target s.info = false) :
    (refreshStep (waitForStatePredicate target) s f).resolved = false →
      stateIs target (refreshStep (waitForStatePredicate target) s f).info = false := by
  intro hres
  by_cases hne : jsonStringifyNe f s.info = true
  · by_cases hr : s.resolved = true
    · rw [refreshStep, if_pos hne, if_pos hr] at hres
      exact absurd hres (by simp)
    · have hr2 : s.resolved = false := by
        cases h : s.resolved
        · rfl
        · exact absurd h hr
      rw [refreshStep, if_pos hne, if_neg (by rw [hr2]; exact Bool.false_ne_true)] at hres ⊢
      simpa [evalPredicate, waitForStatePredicate] using hres
  · rw [refreshStep, if_neg hne] at hres ⊢
    exact hinv hres

/-- One refresh resolves an unresolved `waitForState` waiter exactly when
the fetched snapshot carries the target state (given the invariant above);
a resolved waiter stays resolved. -/
theorem refreshStep_resolved_iff (target : String) (s : WaitState) (f : Json)
    (hinv : s.resolved = false → stateIs target s.info = false) :
    ((refreshStep (waitForStatePredicate target) s f).resolved = true
      ↔ (s.resolved = true ∨ stateIs target f = true)) := by
  by_cases hr : s.resolved = true
  · constructor
    · intro _; exact Or.inl hr
    · intro _
      by_cases hne : jsonStringifyNe f s.info = true
      · rw [refreshStep, if_pos hne, if_pos hr]
      · rw [refreshStep, if_neg hne]; exact hr
  · have hr2 : s.resolved = false := by
      cases h : s.resolved
      · rfl
      · exact absurd h hr
    have hsi : stateIs target s.info = false := hinv hr2
    by_cases hne : jsonStringifyNe f s.info = true
    · rw [refreshStep, if_pos hne, if_neg (by rw [hr2]; exact Bool.false_ne_true)]
      simp [evalPredicate, waitForStatePredicate, hr2]
    · have hfe : f = s.info := (jsonStringifyNe_eq_false_iff f s.info).mp
        (by cases h : jsonStringifyNe f s.info
            · rfl
            · exact absurd h hne)
      rw [refreshStep, if_neg hne]
      rw [hfe]
      simp [hr2, hsi]

/-- An unresolved-run characterization: over any refresh sequence, the
waiter ends resolved iff it started resolved or some fetched snapshot in
the sequence carries the target state. -/
theorem refreshRun_resolved_iff (target : String) (fs : List Json) (s : WaitState)
    (hinv : s.resolved = false → stateIs target s.info = false) :
    ((refreshRun (waitForStatePredicate target) s fs).resolved = true
      ↔ (s.resolved = true ∨ ∃ f ∈ fs, stateIs target f = true)) := by
  induction fs generalizing s with
  | nil => simp [refreshRun]
  | cons f rest ih =>
    have hstep := refreshStep_resolved_iff target s f hinv
    have hinv2 := refreshStep_state_invariant target s f hinv
    have hrun : refreshRun (waitForStatePredicate target) s (f :: rest)
        = refreshRun (waitForStatePredicate target)
            (refreshStep (waitForStatePredicate target) s f) rest := by
      simp [refreshRun]
    rw [hrun, ih _ hinv2, hstep]
    constructor
    · rintro (hl | hr)
      · rcases hl with hl1 | hl2
        · exact Or.inl hl1
        · exact Or.inr ⟨f, List.mem_cons_self f rest, hl2⟩
      · rcases hr with ⟨g, hg1, hg2⟩
        exact Or.inr ⟨g, List.mem_cons_of_mem f hg1, hg2⟩
    · rintro (hl | ⟨g, hg1, hg2⟩)
      · exact Or.inl (Or.inl hl)
      · rcases List.mem_cons.mp hg1 with hgf | hgr
        · exact Or.inl (Or.inr (hgf ▸ hg2))
        · exact Or.inr ⟨g, hgr, hg2⟩

/-- C6: `waitForState(target)` resolves already at registration — before
any poll — when the cached snapshot has the target state; and over any
subsequent refresh sequence it ends resolved iff the cached snapshot
already had the target state or some fetched snapshot in the sequence has
it.  Applied to every prefix of the sequence, the iff places the
resolution exactly at the first refresh whose fetched snapshot has
`state === target`, and shows it never resolves while no such refresh
occurs. -/
theorem C6_waitForState_resolution (target : String) (info0 : Json) (fs : List Json) :
    (stateIs target info0 = true →
      (waitForStart (waitForStatePredicate target) info0).resolved = true)
    ∧ ((refreshRun (waitForStatePredicate target)
          (waitForStart (waitForStatePredicate target) info0) fs).resolved = true
        ↔ (stateIs target info0 = true ∨ ∃ f ∈ fs, stateIs target f = true)) := by
  have hstart : (waitForStart (waitForStatePredicate target) info0).resolved
      = stateIs target info0 := by
    simp [waitForStart, evalPredicate, waitForStatePredicate]
  constructor
  · intro h
    rw [hstart, h]
  · rw [refreshRun_resolved_iff target fs _ (by rw [hstart]; exact fun h => h), hstart]

/-- Witness for C6: a waiter for state `on` over cached state `off`
resolves across a refresh sequence whose second fetched snapshot reaches
`on`. -/
theorem C6_waitForState_resolution_witness :
    (refreshRun (waitForStatePredicate "on")
        (waitForStart (waitForStatePredicate "on")
          (Json.obj [("state", Json.str "off")]))
        [Json.obj [("state", Json.str "creating")],
         Json.obj [("state", Json.str "on")]]).resolved = true :=
  (C6_waitForState_resolution "on" (Json.obj [("state", Json.str "off")])
      [Json.obj [("state", Json.str "creating")],
       Json.obj [("state", Json.str "on")]]).2.mpr
    (Or.inr ⟨Json.obj [("state", Json.str "on")], by decide, by decide⟩)

/-! ## Claim C7 -/

/-- C7: the `change` handler of `_waitFor` wraps every predicate
evaluation in try/catch (lines 172-177); a raised exception is mapped to
`done = false`, so (i) the guarded evaluation yields `false` — the
exception is swallowed, never propagated, and the deferred result is
produced by a total function, so it never rejects; (ii) a refresh whose
fetched snapshot makes the predicate raise leaves the waiter unresolved
and still subscribed; and (iii) the same waiter still resolves on a later
refresh whose fetched snapshot satisfies the predicate. -/
theorem C7_predicate_exception_swallowed
    (p : Json → Except String Bool) (s : WaitState) (f g : Json) (e : String)
    (hf : p f = Except.error e)
    (hs : s.resolved = false)
    (hg : p g = Except.ok true)
    (hgf : g ≠ f) (hgs : g ≠ s.info) :
    evalPredicate p f = false
    ∧ (refreshStep p s f).resolved = false
    ∧ (refreshStep p (refreshStep p s f) g).resolved = true := by
  have heval : evalPredicate p f = false := by
    rw [evalPredicate, hf]
  refine ⟨heval, ?_, ?_⟩
  · by_cases hne : jsonStringifyNe f s.info = true
    · rw [refreshStep, if_pos hne, if_neg (by rw [hs]; exact Bool.false_ne_true)]
      exact heval
    · rw [refreshStep, if_neg hne]
      exact hs
  · have hres : (refreshStep p s f).resolved = false := by
      by_cases hne : jsonStringifyNe f s.info = true
      · rw [refreshStep, if_pos hne, if_neg (by rw [hs]; exact Bool.false_ne_true)]
        exact heval
      · rw [refreshStep, if_neg hne]
        exact hs
    have hinfo : (refreshStep p s f).info = f ∨ (refreshStep p s f).info = s.info := by
      by_cases hne : jsonStringifyNe f s.info = true
      · left
        rw [refreshStep, if_pos hne, if_neg (by rw [hs]; exact Bool.false_ne_true)]
      · right
        rw [refreshStep, if_neg hne]
    have hgne : jsonStringifyNe g (refreshStep p s f).info = true := by
      rcases hinfo with h1 | h1 <;> rw [h1]
      · exact (jsonStringifyNe_iff g f).mpr hgf
      · exact (jsonStringifyNe_iff g s.info).mpr hgs
    rw [refreshStep, if_pos hgne, if_neg (by rw [hres]; exact Bool.false_ne_true)]
    rw [evalPredicate, hg]

/-- Witness for C7: a predicate that throws on the first fetched snapshot
(as `() => this.info.services.vpn && this.info.services.vpn.ip` does when
`services` is absent) is swallowed, and the waiter still resolves on a
later satisfying snapshot. -/
theorem C7_predicate_exception_swallowed_witness :
    evalPredicate
        (fun j => if j = Json.null then Except.error "TypeError"
                  else Except.ok (j = Json.bool true))
        Json.null = false
    ∧ (refreshStep
        (fun j => if j = Json.null then Except.error "TypeError"
                  else Except.ok (j = Json.bool true))
        (refreshStep
          (fun j => if j = Json.null then Except.error "TypeError"
                    else Except.ok (j = Json.bool true))
          { info := Json.str "x", resolved := false } Json.null)
        (Json.bool true)).resolved = true :=
  ⟨(C7_predicate_exception_swallowed
      (fun j => if j = Json.null then Except.error "TypeError"
                else Except.ok (j = Json.bool true))
      { info := Json.str "x", resolved := false } Json.null (Json.bool true)
      "TypeError" rfl rfl rfl (by decide) (by decide)).1,
   (C7_predicate_exception_swallowed
      (fun j => if j = Json.null then Except.error "TypeError"
                else Except.ok (j = Json.bool true))
      { info := Json.str "x", resolved := false } Json.null (Json.bool true)
      "TypeError" rfl rfl rfl (by decide) (by decide)).2.2⟩

/-! ## Claim C9 -/

/-- C9: every command operation is a fire-and-forget remote call — it
issues its request and leaves the cached snapshot, and therefore the
`name`, `state` and `flavor` getters, unchanged; in particular with
cached state `off`, immediately after `start()` the `state` getter still
reports `off`.  (`pause` and `unpause` are the spec-modelled commands;
the rest embed `src/instance.js` directly.) -/
theorem C9_commands_fire_and_forget (s : InstanceState) (nm : String) :
    (Instance.start s).1 = s
    ∧ (Instance.stop s).1 = s
    ∧ (Instance.reboot s).1 = s
    ∧ (Instance.rename s nm).1 = s
    ∧ (Instance.destroy s).1 = s
    ∧ (Instance.pause s).1 = s
    ∧ (Instance.unpause s).1 = s
    ∧ Instance.state (Instance.start s).1 = Instance.state s
    ∧ Instance.name (Instance.rename s nm).1 = Instance.name s
    ∧ Instance.flavor (Instance.stop s).1 = Instance.flavor s
    ∧ (Instance.start s).2
        = { path := "/instances/" ++ s.id ++ "/start", method := "POST", body := none }
    ∧ Instance.state (Instance.start
        { id := "i", info := Json.obj [("state", Json.str "off")] }).1
      = some (Json.str "off") := by
  refine ⟨rfl, rfl, rfl, rfl, rfl, rfl, rfl, rfl, rfl, rfl, rfl, by decide⟩
